import Mathlib

set_option maxRecDepth 100000

/-!
Verification development for the Continuum supply-chain risk pipeline.

The Python sources are shallowly embedded: numbers are modelled as exact
rationals (`ℚ`), Python `round(x, n)` as rounding of `x * 10^n` to the nearest
integer, dictionaries as association lists, and `networkx` digraphs as a
structure of node ids, edges and per-node attribute records.  Fallible code
paths (Python exceptions) are modelled with `Except`/`Option`.
-/

/-- Lookup in an association list with a default, modelling `dict.get(k, d)`
and the `T.get(k, d)` idiom of the Python sources. -/
def lookupD {α : Type} (m : List (String × α)) (k : String) (d : α) : α :=
  match m.find? (fun p => p.1 == k) with
  | some p => p.2
  | none => d

/-- Python `round(x, 2)` modelled over `ℚ`: round `100 x` to the nearest
integer and divide back.  (Python rounds binary floats half-to-even; no claim
in this development depends on the behaviour at exact half-way ties.) -/
def round2 (q : ℚ) : ℚ := (round (q * 100) : ℤ) / 100

/-- Python `round(x, 1)` modelled over `ℚ`. -/
def round1 (q : ℚ) : ℚ := (round (q * 10) : ℤ) / 10

/-- Clamp a rational into the unit interval; used to state spec formulas that
are written with `clamp01`. -/
def clamp01 (q : ℚ) : ℚ := max 0 (min q 1)

/-- Order-preserving deduplication keeping the first occurrence, as done by
the `seen`-set loop in `DecisionAgent.decide_for_scenario`. -/
def dedupFirst (l : List String) : List String :=
  l.foldl (fun acc x => if x ∈ acc then acc else acc ++ [x]) []

/- ── Word matching, embedding the `re` usage of `agents/risk_agent.py` ── -/

/-- A regex word character (`\w` over the ASCII texts involved). -/
def isWordChar (c : Char) : Bool := c.isAlphanum || c == '_'

/-- The regex boundary `\b` holds immediately before position `i`, given that
the pattern starting at `i` begins with a word character. -/
def boundaryAt (text : List Char) (i : Nat) : Bool :=
  i == 0 || !isWordChar (text.getD (i - 1) ' ')

/-- The regex boundary `\b` holds immediately after position `j`, given that
the pattern ending at `j` ends with a word character. -/
def boundaryAfter (text : List Char) (j : Nat) : Bool :=
  j == text.length || !isWordChar (text.getD j ' ')

/-- Match of `\b<pat>\b` at position `i` of `text`; all lexicon words start
and end with letters, so `\b` reduces to the neighbour-character tests. -/
def wordMatchAt (text pat : List Char) (i : Nat) : Bool :=
  pat.isPrefixOf (text.drop i) && boundaryAt text i && boundaryAfter text (i + pat.length)

/-- `re.search(r'\b' + re.escape(word) + r'\b', text)` as a Bool. -/
def wordBoundarySearch (text pat : List Char) : Bool :=
  (List.range (text.length + 1)).any (fun i => wordMatchAt text pat i)

/-- Search for `\b<pat>` (left boundary only), as in the material entity
pattern `r'\bsemiconductor|chip|semicon'` whose first alternative has no
closing `\b`. -/
def leftBoundarySearch (text pat : List Char) : Bool :=
  (List.range (text.length + 1)).any (fun i =>
    pat.isPrefixOf (text.drop i) && boundaryAt text i)

/-- Plain substring search, for regex alternatives with no boundary at all. -/
def substringSearch (text pat : List Char) : Bool :=
  (List.range (text.length + 1)).any (fun i => pat.isPrefixOf (text.drop i))

/- ── agents/risk_agent.py: lexicons and scoring ── -/

/-- `RISK_PATTERNS` from `agents/risk_agent.py`. -/
def RISK_PATTERNS : List (String × List String) := [
  ("geopolitical", ["tariff", "sanction", "trade war", "embargo", "ban", "restriction"]),
  ("disaster", ["earthquake", "flood", "typhoon", "hurricane", "drought", "storm", "weather"]),
  ("strike", ["strike", "protest", "labor dispute", "shutdown", "walkout"]),
  ("outage", ["power outage", "blackout", "fire", "explosion", "cyberattack", "hack"]),
  ("shortage", ["shortage", "supply constraint", "capacity reduction", "delay", "backlog"])]

/-- `COUNTRY_RISK_BASE` from `agents/risk_agent.py`. -/
def COUNTRY_RISK_BASE : List (String × ℚ) :=
  [("China", 0.75), ("Taiwan", 0.85), ("Brazil", 0.45), ("Sweden", 0.15), ("Germany", 0.20)]

/-- `MATERIAL_SENSITIVITY` from `agents/risk_agent.py`. -/
def MATERIAL_SENSITIVITY : List (String × List String) := [
  ("Semiconductors", ["outage", "geopolitical", "shortage", "cyberattack"]),
  ("Steel", ["tariff", "geopolitical", "strike", "shortage"]),
  ("Paper pulp", ["strike", "disaster"]),
  ("Nuts & oils", ["disaster", "shortage"]),
  ("Precision bearings", ["outage", "shortage"])]

/-- `RiskAgent.extract_risk_types`: lower-case the text, collect every risk
category one of whose lexicon words occurs as a whole word, default
`["general"]`.  (Python materialises the categories as a `set`; the iteration
order of that set is unspecified, so we fix the `RISK_PATTERNS` table order —
no downstream computation depends on the order, only on membership.) -/
def extract_risk_types (text : String) : List String :=
  let tl := text.toLower.data
  let detected := RISK_PATTERNS.foldl (fun acc p =>
    if p.2.any (fun w => wordBoundarySearch tl w.data) && !(acc.contains p.1)
    then acc ++ [p.1] else acc) []
  if detected.isEmpty then ["general"] else detected

/-- The country patterns of `RiskAgent.extract_entities`; both regex
alternatives of each country are fully `\b`-bounded. -/
def COUNTRY_ENTITY_PATTERNS : List (String × List String) := [
  ("China", ["china", "chinese"]),
  ("Taiwan", ["taiwan"]),
  ("Brazil", ["brazil", "brasil"]),
  ("Sweden", ["sweden", "swedish"]),
  ("Germany", ["germany", "german"])]

/-- The material patterns of `RiskAgent.extract_entities`: the first regex
alternative carries only a left `\b`, the remaining alternatives are plain
substrings (the `|` in e.g. `r'\bsemiconductor|chip|semicon'` binds loosely). -/
def MATERIAL_ENTITY_PATTERNS : List (String × String × List String) := [
  ("Semiconductors", ("semiconductor", ["chip", "semicon"])),
  ("Steel", ("steel", ["iron"])),
  ("Paper pulp", ("pulp", ["paper"])),
  ("Nuts & oils", ("nuts", ["oils", "oil"])),
  ("Precision bearings", ("bearing", ["bearings"]))]

/-- The `countries` component of `RiskAgent.extract_entities`. -/
def extract_entities_countries (text : String) : List String :=
  let tl := text.toLower.data
  (COUNTRY_ENTITY_PATTERNS.filter
    (fun p => p.2.any (fun w => wordBoundarySearch tl w.data))).map (·.1)

/-- The `materials` component of `RiskAgent.extract_entities`. -/
def extract_entities_materials (text : String) : List String :=
  let tl := text.toLower.data
  (MATERIAL_ENTITY_PATTERNS.filter (fun p =>
    leftBoundarySearch tl p.2.1.data || p.2.2.any (fun w => substringSearch tl w.data))).map (·.1)

/-- One external signal (`news_item` dict): absent keys are modelled with
`Option`, matching the `news_item.get(...)` accesses of the source. -/
structure News where
  title : String
  summary : String
  relevance_score : Option ℚ
deriving DecidableEq, Repr

/-- The attribute record attached to a graph node.  Supplier nodes get every
field; the downstream skeleton nodes only get `ntype` (Python key `type`),
`name` and `color`, hence the `Option` fields. -/
structure NodeAttrs where
  ntype : String
  name : String
  country : Option String
  material : Option String
  capacity : Option ℚ
  risk_score : Option ℚ
  color : String
deriving DecidableEq, Repr

/-- The material-sensitivity accumulation loop of `RiskAgent.score_risk`
(lines 103–105): for each extracted risk type, add `0.25` when the material
has a sensitivity entry containing that type. -/
def material_category_bonus (material : String) (risk_types : List String) : ℚ :=
  risk_types.foldl (fun b rtype =>
    match MATERIAL_SENSITIVITY.find? (fun p => p.1 == material) with
    | some p => if rtype ∈ p.2 then b + 0.25 else b
    | none => b) 0

/-- `RiskAgent.score_risk`: country baseline, material-sensitivity bonus,
relevance bonus, entity-match boosts; rounded to 2 decimals and capped at 1. -/
def score_risk (news_item : News) (node_data : NodeAttrs) : ℚ :=
  let country := (node_data.country.getD "").trim
  let material := node_data.material.getD ""
  let full_text := (news_item.title ++ " " ++ news_item.summary).toLower
  let risk_types := extract_risk_types full_text
  let base := lookupD COUNTRY_RISK_BASE country 0.3
    + material_category_bonus material risk_types
    + news_item.relevance_score.getD 0.5 * 0.3
    + (if country ∈ extract_entities_countries full_text then 0.15 else 0)
    + (if material ∈ extract_entities_materials full_text then 0.20 else 0)
  min (round2 base) 1

/- ── agents/graph_agent.py: the networkx DiGraph model ── -/

/-- A directed edge with its attribute dict (`material`, `weight`). -/
structure Edge where
  src : String
  dst : String
  material : String
  weight : ℚ
deriving DecidableEq, Repr

/-- A `networkx.DiGraph` as used by the pipeline: node ids in insertion
order, directed edges, and one attribute record per node that has attributes.
`nx.Graph.copy()` copies the node/edge attribute dicts, so a working copy is
an independent value — copying is value copying in this embedding. -/
structure Graph where
  nodes : List String
  edges : List Edge
  attrs : List (String × NodeAttrs)
deriving DecidableEq, Repr

def Graph.empty : Graph := ⟨[], [], []⟩

/-- The node attribute dict, `G.nodes[n]`, as an `Option`. -/
def attrOf (g : Graph) (n : String) : Option NodeAttrs :=
  (g.attrs.find? (fun p => p.1 == n)).map (·.2)

/-- The `capacity` attribute of a node, `G.nodes[n].get("capacity")`. -/
def capAttr (g : Graph) (n : String) : Option ℚ :=
  (attrOf g n).bind (·.capacity)

/-- `G.add_node(n, **attrs)`: on a fresh node append it; on an existing node
update its attribute dict (the builder always passes the complete attribute
set, so the networkx dict-update equals replacement here). -/
def add_node (g : Graph) (n : String) (a : NodeAttrs) : Graph :=
  if n ∈ g.nodes then
    { g with attrs := g.attrs.map (fun p => if p.1 = n then (p.1, a) else p) }
  else
    { nodes := g.nodes ++ [n], edges := g.edges, attrs := g.attrs ++ [(n, a)] }

/-- `G.add_edge(s, t, material=…, weight=…)`: missing endpoints are added
(with no attribute dict entry, as networkx adds them bare), an existing
`s→t` edge has its attributes updated, otherwise the edge is appended. -/
def add_edge (g : Graph) (s t : String) (material : String) (weight : ℚ) : Graph :=
  let g := if s ∈ g.nodes then g else { g with nodes := g.nodes ++ [s] }
  let g := if t ∈ g.nodes then g else { g with nodes := g.nodes ++ [t] }
  if g.edges.any (fun e => e.src == s && e.dst == t) then
    { g with edges := g.edges.map (fun e =>
        if e.src == s && e.dst == t then ⟨s, t, material, weight⟩ else e) }
  else
    { g with edges := g.edges ++ [⟨s, t, material, weight⟩] }

/-- `G.remove_node(n)`: drop the node, its attribute dict and every incident
edge. -/
def remove_node (g : Graph) (n : String) : Graph :=
  { nodes := g.nodes.filter (fun x => x ≠ n),
    edges := g.edges.filter (fun e => e.src ≠ n && e.dst ≠ n),
    attrs := g.attrs.filter (fun p => p.1 ≠ n) }

/-- Update the `capacity` attribute of node `n` (the assignment
`sim_G.nodes[node_id]["capacity"] = v`). -/
def set_capacity (g : Graph) (n : String) (v : ℚ) : Graph :=
  { g with attrs := g.attrs.map (fun p =>
      if p.1 = n then (p.1, { p.2 with capacity := some v }) else p) }

/-- Direct successors of `n` along the directed edges. -/
def successorsIn (edges : List Edge) (n : String) : List String :=
  (edges.filter (fun e => e.src == n)).map (·.dst)

/-- Saturating reachability step: add all yet-unseen successors of the
accumulated node set.  `fuel` bounds the iteration; any vertex reachable from
the seed is the target of some edge, so `edges.length + 1` rounds suffice. -/
def reachAux (edges : List Edge) : Nat → List String → List String
  | 0, acc => acc
  | fuel + 1, acc =>
    let next := dedupFirst (((acc.map (successorsIn edges)).flatten).filter (fun x => x ∉ acc))
    if next.isEmpty then acc else reachAux edges fuel (acc ++ next)

/-- `nx.descendants(G, n)`: every node reachable from `n`, excluding `n`
itself.  (networkx raises `NetworkXError` when `n` is not in the graph; the
callers embedded below test membership at the use sites where Python relies
on that exception.) -/
def descendants (g : Graph) (n : String) : List String :=
  (reachAux g.edges (g.edges.length + 1) [n]).filter (fun x => x ≠ n)

/-- `nx.shortest_path_length(G, s, t)` in hop count, `none` when no path
exists (Python: `NetworkXNoPath`, caught and skipped by the simulator). -/
def shortest_path_length (g : Graph) (s t : String) : Option Nat :=
  splAux g.edges [s] [] t 0 (g.edges.length + 1)
where
  splAux (edges : List Edge) (frontier visited : List String) (t : String)
      (d : Nat) : Nat → Option Nat
    | 0 => none
    | fuel + 1 =>
      if t ∈ frontier then some d
      else
        let visited := visited ++ frontier
        let next := dedupFirst
          (((frontier.map (successorsIn edges)).flatten).filter (fun x => x ∉ visited))
        if next.isEmpty then none else splAux edges next visited t (d + 1) fuel

/- ── agents/graph_agent.py: topology builder and agent run ── -/

/-- One row of the source roster handed to `GraphAgent`. -/
structure Supplier where
  supplier_id : String
  name : String
  country : String
  material : String
  capacity_tons_per_month : ℚ
  risk_country_score : ℚ
deriving DecidableEq, Repr

/-- `GraphAgent.build_graph_from_suppliers`: an empty roster returns with the
graph untouched (the Python method logs a warning and returns before adding
the downstream skeleton); otherwise supplier nodes, the fixed downstream
skeleton, material-routed edges and the core chain edges are added. -/
def build_graph_from_suppliers (g : Graph) (suppliers : List Supplier) : Graph :=
  if suppliers.isEmpty then g
  else
    let g := suppliers.foldl (fun g sup =>
      add_node g sup.supplier_id
        ⟨"supplier", sup.name, some sup.country, some sup.material,
         some sup.capacity_tons_per_month, some sup.risk_country_score, "#4CAF50"⟩) g
    let g := add_node g "F001" ⟨"factory", "Main Assembly Factory", none, none, none, none, "#2196F3"⟩
    let g := add_node g "W001" ⟨"warehouse", "Central Distribution Warehouse", none, none, none, none, "#FF9800"⟩
    let g := add_node g "C001" ⟨"customer", "Global Retail Customer", none, none, none, none, "#9C27B0"⟩
    let g := suppliers.foldl (fun g sup =>
      let g := if sup.material ∈ ["Steel", "Semiconductors", "Precision bearings"]
               then add_edge g sup.supplier_id "F001" sup.material 1.0 else g
      if sup.material ∈ ["Paper pulp", "Nuts & oils"]
      then add_edge g sup.supplier_id "W001" sup.material 0.8 else g) g
    let g := add_edge g "F001" "W001" "Assembled Products" 1.0
    add_edge g "W001" "C001" "Finished Goods" 1.0

/-- The part of the `GraphAgent.get_graph_stats` dict consumed by `run`.
On an empty graph Python returns only `{"valid": False}`, so the remaining
keys are absent — modelled with `Option` (the metrics `has_cycles`,
`critical_nodes` and `avg_degree` are not consumed by any claim and are left
out of the model). -/
structure GraphStats where
  valid : Bool
  node_count : Option Nat
  edge_count : Option Nat
  supplier_count : Option Nat
deriving DecidableEq, Repr

/-- `GraphAgent.get_graph_stats`. -/
def get_graph_stats (g : Graph) : GraphStats :=
  if g.nodes.length = 0 then ⟨false, none, none, none⟩
  else
    ⟨true, some g.nodes.length, some g.edges.length,
     some ((g.nodes.filter (fun n => (attrOf g n).map (·.ntype) = some "supplier")).length)⟩

/-- The fields of the `GraphAgent.run` result dict that the claims consult. -/
structure GraphRunResult where
  graph_built : Bool
  node_count : Nat
  edge_count : Nat
  supplier_count : Nat
deriving DecidableEq, Repr

/-- `GraphAgent.run` on a fresh agent: build the graph, compute stats, then
assemble the result dict.  The dict literal subscripts `stats["node_count"]`
etc. unconditionally, which raises `KeyError` when `get_graph_stats` returned
the invalid sentinel — modelled with `Except`.  The built graph (stored into
shared memory by Python) is returned alongside. -/
def graphAgent_run (suppliers_data : List Supplier) : Except String GraphRunResult × Graph :=
  let g := build_graph_from_suppliers Graph.empty suppliers_data
  let stats := get_graph_stats g
  match stats.node_count, stats.edge_count, stats.supplier_count with
  | some nc, some ec, some sc => (Except.ok ⟨stats.valid, nc, ec, sc⟩, g)
  | _, _, _ => (Except.error "KeyError: node_count", g)

/- ── agents/simulation_agent.py ── -/

def DEFAULT_DELAY_DAYS_PER_LEVEL : ℚ := 3
def CAPACITY_REDUCTION_SEVERE : ℚ := 0.8
def CAPACITY_REDUCTION_MODERATE : ℚ := 0.4

/-- A risk record as produced by `RiskAgent.find_affected_nodes` and consumed
by the simulator and the decision agent (`risk.get(...)` accesses modelled
with `Option` fields). -/
structure Risk where
  node_id : String
  name : Option String
  country : Option String
  material : Option String
  risk_score : ℚ
  risk_types : List String
  news_title : Option String
deriving DecidableEq, Repr

/-- The scenario dict returned by `SimulationAgent.simulate_single_risk`
(the wall-clock `simulated_at` timestamp is not embeddable and is omitted). -/
structure Scenario where
  node_id : String
  disruption_type : String
  severity_used : ℚ
  capacity_loss_pct : ℤ
  estimated_delay_days : ℚ
  affected_nodes_count : Nat
  service_level_impact_pct : ℚ
  news_title : String
deriving DecidableEq, Repr

/-- The `capacity_loss` of the severity-tier if-chain of
`simulate_single_risk` (lines 43–51). -/
def capacity_loss_of (severity : ℚ) : ℚ :=
  if 0.8 ≤ severity then CAPACITY_REDUCTION_SEVERE
  else if 0.5 ≤ severity then CAPACITY_REDUCTION_MODERATE
  else 0.2

/-- The `delay_multiplier` of the same if-chain. -/
def delay_multiplier_of (severity : ℚ) : ℚ :=
  if 0.8 ≤ severity then 1.5
  else if 0.5 ≤ severity then 1
  else 0.7

/-- The capacity-reduction arm (lines 61–64): if the node has a `capacity`
attribute, set it to `max(0, orig_cap * (1 - capacity_loss))`; otherwise the
working graph is left as is. -/
def reduce_capacity (g : Graph) (n : String) (capacity_loss : ℚ) : Graph :=
  match capAttr g n with
  | some orig_cap => set_capacity g n (max 0 (orig_cap * (1 - capacity_loss)))
  | none => g

/-- The disruption application of `simulate_single_risk` (lines 56–65): for
severity ≥ 0.9 with the node present, remove the node (`node_failure`);
otherwise reduce its capacity (`capacity_reduction`).  In the second arm
Python subscripts `sim_G.nodes[node_id]`, which raises `KeyError` when the
node is absent — modelled by `Except.error`. -/
def apply_disruption (g : Graph) (node_id : String) (severity : ℚ)
    (capacity_loss : ℚ) : Except String (Graph × String) :=
  if 0.9 ≤ severity ∧ node_id ∈ g.nodes then
    Except.ok (remove_node g node_id, "node_failure")
  else if node_id ∈ g.nodes then
    Except.ok (reduce_capacity g node_id capacity_loss, "capacity_reduction")
  else
    Except.error "KeyError: node_id not in sim_G"

/-- The `affected` computation (lines 67–72): `descendants` of the node on
the already-disrupted working graph plus the node itself; when the node was
removed, `nx.descendants` raises `NetworkXError` and the `except` arm yields
just `[node_id]`.  The raise happens exactly when the node is absent. -/
def sim_affected (simG : Graph) (node_id : String) : List String :=
  if node_id ∈ simG.nodes then descendants simG node_id ++ [node_id]
  else [node_id]

/-- The delay-propagation loop (lines 74–82): hop distance from the origin on
the original graph, times 3 days, times the tier multiplier, maximised over
the affected nodes; unreachable targets (`NetworkXNoPath`) are skipped. -/
def max_delay_over (g : Graph) (node_id : String) (affected : List String)
    (delay_multiplier : ℚ) : ℚ :=
  affected.foldl (fun md target =>
    match shortest_path_length g node_id target with
    | some path_len => max md ((path_len : ℚ) * DEFAULT_DELAY_DAYS_PER_LEVEL * delay_multiplier)
    | none => md) 0

/-- `SimulationAgent.simulate_single_risk`.  The Python method mutates only
`sim_G = self.G.copy()`; the canonical graph `self.G` is threaded through and
returned unchanged as the second component. -/
def simulate_single_risk (g : Graph) (risk : Risk) : Except String Scenario × Graph :=
  let node_id := risk.node_id
  let severity := risk.risk_score
  let capacity_loss := capacity_loss_of severity
  let delay_multiplier := delay_multiplier_of severity
  match apply_disruption g node_id severity capacity_loss with
  | Except.error e => (Except.error e, g)
  | Except.ok (sim_G, disruption_type) =>
    let affected := sim_affected sim_G node_id
    let max_delay := max_delay_over g node_id affected delay_multiplier
    let original_reachable := (descendants g node_id).length + 1
    let sim_reachable := if disruption_type = "capacity_reduction" then affected.length else 1
    let service_impact_pct :=
      if 0 < original_reachable then
        round1 ((1 - (sim_reachable : ℚ) / (original_reachable : ℚ)) * 100)
      else 100
    (Except.ok
      { node_id := node_id,
        disruption_type := disruption_type,
        severity_used := severity,
        capacity_loss_pct := round (capacity_loss * 100),
        estimated_delay_days := round1 max_delay,
        affected_nodes_count := affected.length,
        service_level_impact_pct := service_impact_pct,
        news_title := risk.news_title.getD "Unknown" }, g)

/- ── agents/decision_agent.py ── -/

def CRITICAL_RISK_THRESHOLD : ℚ := 0.85
def HIGH_RISK_THRESHOLD : ℚ := 0.65
def MEDIUM_RISK_THRESHOLD : ℚ := 0.40
def CRITICAL_DELAY_DAYS : ℚ := 14
def HIGH_DELAY_DAYS : ℚ := 7
def CRITICAL_SERVICE_IMPACT : ℚ := 60
def HIGH_SERVICE_IMPACT : ℚ := 40
def MEDIUM_SERVICE_IMPACT : ℚ := 20

/-- `MATERIAL_CRITICALITY` from `agents/decision_agent.py`. -/
def MATERIAL_CRITICALITY : List (String × ℚ) :=
  [("Semiconductors", 5), ("Steel", 4), ("Paper pulp", 2),
   ("Nuts & oils", 3), ("Precision bearings", 4)]

/-- `COUNTRY_GEOPOLITICAL_RISK` from `agents/decision_agent.py`. -/
def COUNTRY_GEOPOLITICAL_RISK : List (String × ℚ) :=
  [("China", 4), ("Taiwan", 5), ("Brazil", 2), ("Sweden", 1), ("Germany", 1),
   ("South Korea", 3), ("Japan", 2), ("Vietnam", 2), ("India", 2)]

/-- One `ACTION_LIBRARY` entry. -/
structure ActionInfo where
  description : String
  urgency : Nat
  confidence_threshold : ℚ
  lead_time_days : Nat
deriving DecidableEq, Repr

/-- `ACTION_LIBRARY` from `agents/decision_agent.py`. -/
def ACTION_LIBRARY : List (String × ActionInfo) := [
  ("do_nothing",
    ⟨"No immediate action required - monitor only", 1, 0.0, 0⟩),
  ("increase_monitoring",
    ⟨"Increase monitoring frequency and alert thresholds for this supplier", 2, 0.35, 1⟩),
  ("notify_procurement",
    ⟨"Notify procurement team to review alternatives and contracts", 3, 0.50, 2⟩),
  ("activate_alternative_source",
    ⟨"Activate pre-qualified alternative supplier(s)", 4, 0.65, 3⟩),
  ("increase_safety_stock",
    ⟨"Immediately increase safety stock levels for affected materials", 4, 0.60, 1⟩),
  ("expedite_shipment",
    ⟨"Expedite current shipments and negotiate priority delivery", 5, 0.70, 0⟩),
  ("diversify_suppliers",
    ⟨"Initiate long-term supplier diversification project for this material/country", 2, 0.40, 180⟩)]

/-- `DecisionAgent.calculate_confidence`. -/
def calculate_confidence (risk : Risk) (sim : Scenario) : ℚ :=
  let severity := risk.risk_score
  let delay_days := sim.estimated_delay_days
  let service_impact := sim.service_level_impact_pct
  let material := risk.material.getD "Unknown"
  let country := risk.country.getD "Unknown"
  let base_confidence := min severity 1
  let delay_factor := min (delay_days / CRITICAL_DELAY_DAYS) 1 * 0.2
  let service_factor := min (service_impact / CRITICAL_SERVICE_IMPACT) 1 * 0.2
  let material_criticality := lookupD MATERIAL_CRITICALITY material 2
  let criticality_factor := material_criticality / 5 * 0.2
  let country_risk := lookupD COUNTRY_GEOPOLITICAL_RISK country 2
  let country_factor := country_risk / 5 * 0.2
  let total_confidence := min
    (base_confidence + delay_factor + service_factor + criticality_factor + country_factor) 1
  round2 total_confidence

/-- The action-accumulation logic of `DecisionAgent.decide_for_scenario`
(lines 150–214): the cascading threshold tiers, the downgrade and upgrade
post-adjustments, then first-occurrence deduplication. -/
def decide_actions (severity delay_days service_impact : ℚ) (affected_count : Nat)
    (material country disruption_type : String) : List String :=
  let actions : List String :=
    if CRITICAL_RISK_THRESHOLD ≤ severity ∨ CRITICAL_DELAY_DAYS ≤ delay_days ∨
       CRITICAL_SERVICE_IMPACT ≤ service_impact then
      (if disruption_type = "node_failure" then
        ["expedite_shipment", "activate_alternative_source"]
      else
        ["increase_safety_stock", "activate_alternative_source"]) ++
      (if 4 ≤ lookupD MATERIAL_CRITICALITY material 2 ∧ country ∈ ["China", "Taiwan"] then
        ["diversify_suppliers"] else [])
    else if HIGH_RISK_THRESHOLD ≤ severity ∨ HIGH_DELAY_DAYS ≤ delay_days ∨
            HIGH_SERVICE_IMPACT ≤ service_impact then
      (if 0 < delay_days ∧ delay_days < HIGH_DELAY_DAYS then ["increase_safety_stock"] else []) ++
      (if 3 ≤ affected_count then ["activate_alternative_source"] else ["notify_procurement"]) ++
      (if 3 ≤ lookupD COUNTRY_GEOPOLITICAL_RISK country 2 then ["diversify_suppliers"] else [])
    else if MEDIUM_RISK_THRESHOLD ≤ severity ∨ MEDIUM_SERVICE_IMPACT ≤ service_impact then
      ["notify_procurement", "increase_monitoring"]
    else
      ["increase_monitoring"]
  let actions :=
    if delay_days < 3 ∧ service_impact < 20 ∧ severity < MEDIUM_RISK_THRESHOLD then
      ["do_nothing"] else actions
  let actions :=
    if 4 ≤ lookupD MATERIAL_CRITICALITY material 2 ∧ "increase_monitoring" ∈ actions then
      actions.erase "increase_monitoring" ++ ["notify_procurement"]
    else actions
  dedupFirst actions

/-- One emitted recommendation row. -/
structure Recommendation where
  action : String
  description : String
  urgency : Nat
  estimated_confidence : ℚ
  lead_time_days : Nat
deriving DecidableEq, Repr

/-- The decision dict returned by `DecisionAgent.decide_for_scenario`. -/
structure Decision where
  node_id : String
  name : String
  material : String
  country : String
  risk_score : ℚ
  delay_days : ℚ
  service_impact_pct : ℚ
  affected_nodes_count : Nat
  recommended_actions : List Recommendation
  primary_action : String
  confidence : ℚ
deriving DecidableEq, Repr

/-- `DecisionAgent.decide_for_scenario`: accumulate actions, sort them by
urgency descending (Python's stable `sorted`, embedded as `mergeSort`), and
build the recommendation rows.  All accumulated action ids are
`ACTION_LIBRARY` keys, so the lookup default is never consulted. -/
def decide_for_scenario (risk : Risk) (sim : Scenario) : Decision :=
  let severity := risk.risk_score
  let delay_days := sim.estimated_delay_days
  let service_impact := sim.service_level_impact_pct
  let affected_count := sim.affected_nodes_count
  let material := risk.material.getD "Unknown"
  let country := risk.country.getD "Unknown"
  let disruption_type := sim.disruption_type
  let confidence := calculate_confidence risk sim
  let unique_actions :=
    decide_actions severity delay_days service_impact affected_count material country disruption_type
  let sorted_actions :=
    (unique_actions.map (fun act => (act, lookupD ACTION_LIBRARY act ⟨"", 0, 0, 0⟩))).mergeSort
      (fun a b => decide (b.2.urgency ≤ a.2.urgency))
  let recommendations := sorted_actions.map (fun p =>
    { action := p.1,
      description := p.2.description,
      urgency := p.2.urgency,
      estimated_confidence := round2 (min confidence 1),
      lead_time_days := p.2.lead_time_days : Recommendation })
  { node_id := risk.node_id,
    name := risk.name.getD risk.node_id,
    material := material,
    country := country,
    risk_score := severity,
    delay_days := delay_days,
    service_impact_pct := service_impact,
    affected_nodes_count := affected_count,
    recommended_actions := recommendations,
    primary_action := ((recommendations.head?.map (·.action)).getD "do_nothing"),
    confidence := confidence }

/-- The risk-agent result dict as read by `DecisionAgent.run`. -/
structure RiskInput where
  risks_detected : List Risk
deriving DecidableEq, Repr

/-- The simulation result dict as read by `DecisionAgent.run`. -/
structure SimInput where
  scenarios : List Scenario
deriving DecidableEq, Repr

/-- The result dict of `DecisionAgent.run` (wall-clock timestamp omitted). -/
structure DecisionRunResult where
  recommended_actions : List Decision
  overall_confidence : ℚ
  decision_count : Nat
  top_recommendation : String
deriving DecidableEq, Repr

/-- `DecisionAgent.run`: `None` inputs become empty dicts, missing keys
default to `[]`; an empty risk list or scenario list yields the sentinel
result.  Otherwise each scenario is matched to the first risk with the same
`node_id` (unmatched scenarios are skipped), decisions are sorted by
confidence descending, and the overall confidence is the capped mean of the
top three. -/
def decisionAgent_run (risks : Option RiskInput) (simulation_results : Option SimInput) :
    DecisionRunResult :=
  let risk_list := (risks.map (·.risks_detected)).getD []
  let scenarios := (simulation_results.map (·.scenarios)).getD []
  if risk_list.isEmpty || scenarios.isEmpty then
    { recommended_actions := [],
      overall_confidence := 0.0,
      decision_count := 0,
      top_recommendation := "do_nothing" }
  else
    let decisions := scenarios.filterMap (fun sim =>
      (risk_list.find? (fun r => r.node_id == sim.node_id)).map
        (fun risk => decide_for_scenario risk sim))
    let decisions := decisions.mergeSort (fun a b => decide (b.confidence ≤ a.confidence))
    let overall_confidence :=
      if decisions.isEmpty then 0.0
      else
        let top_confidences := (decisions.take 3).map (·.confidence)
        round2 (min (top_confidences.sum / (top_confidences.length : ℚ)) 1)
    { recommended_actions := decisions,
      overall_confidence := overall_confidence,
      decision_count := decisions.length,
      top_recommendation := ((decisions.head?.map (·.primary_action)).getD "do_nothing") }

/- ── Concrete fixtures used by witnesses and counterexamples ── -/

/-- A single-supplier roster row. -/
def demoSupplier : Supplier := ⟨"S001", "Acme Semi", "Taiwan", "Semiconductors", 100, 0.85⟩

/-- The graph the builder produces for the one-supplier roster:
`S001 → F001 → W001 → C001`. -/
def demoGraph : Graph := build_graph_from_suppliers Graph.empty [demoSupplier]

/-- A severity-0.95 risk record against the demo supplier. -/
def demoRisk95 : Risk :=
  ⟨"S001", some "Acme Semi", some "Taiwan", some "Semiconductors", 0.95, ["disaster"], some "Quake"⟩

/-- A severity-0.85 risk record against the demo supplier. -/
def demoRisk85 : Risk := { demoRisk95 with risk_score := 0.85 }

/-- A demo news item whose text names two risk categories (`sanction` →
geopolitical, `shortage` → shortage) that are both in the sensitivity set of
`Semiconductors`. -/
def demoNewsTwoCats : News := ⟨"Sanction causes shortage", "", some 0⟩

/-- A demo supplier-node attribute record (country Sweden, material
Semiconductors). -/
def demoNodeSweden : NodeAttrs :=
  ⟨"supplier", "Acme Semi", some "Sweden", some "Semiconductors", some 100, some 0.15, "#4CAF50"⟩

/- ── Helper lemmas ── -/

/-- `lookupD` returns either the default or the value of some list entry. -/
theorem lookupD_default_or_mem {α : Type} (m : List (String × α)) (k : String) (d : α) :
    lookupD m k d = d ∨ ∃ p ∈ m, lookupD m k d = p.2 := by
  unfold lookupD
  cases h : m.find? (fun p => p.1 == k) with
  | none => exact Or.inl rfl
  | some p => exact Or.inr ⟨p, List.mem_of_find?_eq_some h, rfl⟩

/-- Lower bound for `lookupD` over a table of lower-bounded values. -/
theorem lookupD_le {α : Type} [Preorder α] (m : List (String × α)) (k : String) (d c : α)
    (hm : ∀ p ∈ m, c ≤ p.2) (hd : c ≤ d) : c ≤ lookupD m k d := by
  rcases lookupD_default_or_mem m k d with h | ⟨p, hp, h⟩
  · rw [h]; exact hd
  · rw [h]; exact hm p hp

/-- Upper bound for `lookupD` over a table of upper-bounded values. -/
theorem lookupD_ge {α : Type} [Preorder α] (m : List (String × α)) (k : String) (d c : α)
    (hm : ∀ p ∈ m, p.2 ≤ c) (hd : d ≤ c) : lookupD m k d ≤ c := by
  rcases lookupD_default_or_mem m k d with h | ⟨p, hp, h⟩
  · rw [h]; exact hd
  · rw [h]; exact hm p hp

/-- `round` of a nonnegative rational is nonnegative. -/
theorem round_nonneg (q : ℚ) (h : 0 ≤ q) : 0 ≤ round q := by
  rw [round_eq]
  exact Int.le_floor.mpr (by push_cast; linarith)

/-- `round2` of a nonnegative rational is nonnegative. -/
theorem round2_nonneg (q : ℚ) (h : 0 ≤ q) : 0 ≤ round2 q := by
  unfold round2
  have : (0 : ℤ) ≤ round (q * 100) := round_nonneg _ (by linarith)
  positivity

/-- `round2` is idempotent: a rounded value is an exact 2-decimal quantity. -/
theorem round2_idem (q : ℚ) : round2 (round2 q) = round2 q := by
  unfold round2
  have h : ((round (q * 100) : ℤ) : ℚ) / 100 * 100 = ((round (q * 100) : ℤ) : ℚ) := by
    field_simp
  rw [h, round_intCast]

/-- Bool test for "the material has a sensitivity entry containing this risk
type", the guard of the bonus loop in `RiskAgent.score_risk`. -/
def sensitive_category (material rtype : String) : Bool :=
  match MATERIAL_SENSITIVITY.find? (fun p => p.1 == material) with
  | some p => decide (rtype ∈ p.2)
  | none => false

/-- Folding `+ c` guarded by a decidable predicate counts the matches. -/
theorem foldl_add_if_count {P : String → Prop} [DecidablePred P] (c : ℚ) (l : List String) :
    ∀ a : ℚ, l.foldl (fun b x => if P x then b + c else b) a
      = a + c * ((l.filter (fun x => decide (P x))).length : ℚ) := by
  induction l with
  | nil => intro a; simp
  | cons x l ih =>
    intro a
    simp only [List.foldl_cons, List.filter_cons]
    by_cases h : P x
    · rw [if_pos h, ih (a + c), if_pos (decide_eq_true h)]
      simp only [List.length_cons]
      push_cast
      ring
    · rw [if_neg h, ih a, if_neg (by simp [h])]

/-- The material bonus equals `0.25` times the number of extracted categories
in the material's sensitivity set. -/
theorem material_category_bonus_counts (material : String) (rts : List String) :
    material_category_bonus material rts
      = 0.25 * ((rts.filter (sensitive_category material)).length : ℚ) := by
  unfold material_category_bonus sensitive_category
  cases h : MATERIAL_SENSITIVITY.find? (fun p => p.1 == material) with
  | none =>
    simp only [h]
    have : ∀ a : ℚ, rts.foldl (fun b _ => b) a = a := by
      intro a; induction rts generalizing a with
      | nil => rfl
      | cons x l ih => exact ih a
    simp [this 0]
  | some p =>
    simp only [h]
    have := @foldl_add_if_count (fun rtype => rtype ∈ p.2) (fun _ => inferInstance) 0.25 rts 0
    simpa using this

/- ── Claim theorems ── -/

/-- C8: `simulate_single_risk` never mutates the canonical graph — every
mutation (node removal, capacity write) is applied to the working copy only,
so the graph coming out of the simulation step has exactly the nodes, edges
and node attributes (including `capacity`) it had before. -/
theorem c8_canonical_graph_unchanged (g : Graph) (r : Risk) :
    (simulate_single_risk g r).2 = g ∧
    (simulate_single_risk g r).2.nodes = g.nodes ∧
    (simulate_single_risk g r).2.edges = g.edges ∧
    (simulate_single_risk g r).2.attrs = g.attrs := by
  have h : (simulate_single_risk g r).2 = g := by
    cases hd : apply_disruption g r.node_id r.risk_score (capacity_loss_of r.risk_score) with
    | error e => simp [simulate_single_risk, hd]
    | ok p => cases p with
      | mk simG dt => simp [simulate_single_risk, hd]
  exact ⟨h, by rw [h], by rw [h], by rw [h]⟩

/-- C1: evaluation of the code at the failing input.  On the builder graph
`S001 → F001 → W001 → C001` with a severity-0.95 risk against `S001`, the
node has 3 descendants (so the claimed affected set has 4 elements), yet the
simulator reports `affected_nodes_count = 1`: the node is removed from the
working copy *before* `nx.descendants` is called, the call raises
`NetworkXError`, and the `except` arm collapses `affected` to `[node_id]`. -/
theorem c1_node_failure_affected_count_counterexample :
    ((simulate_single_risk demoGraph demoRisk95).1.toOption.map
        (fun s => (s.disruption_type, s.affected_nodes_count))) = some ("node_failure", 1) ∧
    (descendants demoGraph "S001").length + 1 = 4 := by
  constructor
  · with_unfolding_all rfl
  · with_unfolding_all rfl

/-- C3 counterexample: for the empty roster the builder does *not* produce
the three skeleton nodes and two skeleton edges — it returns before adding
anything, leaving the graph empty. -/
theorem c3_counterexample :
    ¬ ((build_graph_from_suppliers Graph.empty []).nodes.length = 3 ∧
       (build_graph_from_suppliers Graph.empty []).edges.length = 2) := by
  with_unfolding_all decide

/-- C3 (amended): for the empty roster `build_graph_from_suppliers` leaves
the graph empty (0 nodes, 0 edges, no skeleton), `get_graph_stats` returns
the invalid sentinel without counts, and `GraphAgent.run` then raises
`KeyError` when assembling its result dict instead of propagating an
empty-topology status. -/
theorem c3_empty_roster_actual_behavior :
    build_graph_from_suppliers Graph.empty [] = Graph.empty ∧
    get_graph_stats (build_graph_from_suppliers Graph.empty []) = ⟨false, none, none, none⟩ ∧
    (graphAgent_run []).1 = Except.error "KeyError: node_count" :=
  ⟨rfl, rfl, rfl⟩

/-- C7: a missing (`None`) or empty risk list, or a missing or empty scenario
list, makes `DecisionAgent.run` return the empty-result sentinel — zero
decisions, `overall_confidence = 0.0`, `top_recommendation = "do_nothing"` —
rather than raising an error. -/
theorem c7_empty_input_sentinel (risks : Option RiskInput) (sims : Option SimInput)
    (h : (risks.map (·.risks_detected)).getD [] = [] ∨ (sims.map (·.scenarios)).getD [] = []) :
    decisionAgent_run risks sims =
      { recommended_actions := [], overall_confidence := 0.0, decision_count := 0,
        top_recommendation := "do_nothing" } := by
  unfold decisionAgent_run
  rcases h with h | h <;> simp [h]

/-- C7 witness: both inputs absent. -/
theorem c7_empty_input_sentinel_witness :
    ((Option.map (·.risks_detected) (none : Option RiskInput)).getD [] = [] ∨
      (Option.map (·.scenarios) (none : Option SimInput)).getD [] = []) ∧
    decisionAgent_run none none =
      { recommended_actions := [], overall_confidence := 0.0, decision_count := 0,
        top_recommendation := "do_nothing" } :=
  ⟨Or.inl rfl, c7_empty_input_sentinel none none (Or.inl rfl)⟩

/-- C2 counterexample: with material `Semiconductors` and the signal text
`"Sanction causes shortage"`, two extracted categories (geopolitical and
shortage) lie in the sensitivity set, and the loop adds `0.25` for *each* of
them: the bonus is `0.5`, not `0.25`, and the resulting score for a Swedish
semiconductor supplier with relevance 0 is `0.15 + 0.5 = 0.65`. -/
theorem c2_counterexample :
    (∃ rt ∈ extract_risk_types "Sanction causes shortage",
        sensitive_category "Semiconductors" rt = true) ∧
    material_category_bonus "Semiconductors" (extract_risk_types "Sanction causes shortage") ≠ 0.25 ∧
    score_risk demoNewsTwoCats demoNodeSweden = 0.65 := by
  refine ⟨⟨"geopolitical", by with_unfolding_all decide, by with_unfolding_all decide⟩,
    by with_unfolding_all decide, by with_unfolding_all decide⟩

/-- C2 (amended): the material-category contribution to `score_risk` is
`0.25` for every extracted category that lies in the material's declared
sensitivity set — `0.25 × |extracted ∩ sensitivity|` — so it is `0.25`
exactly when exactly one extracted category is sensitive, and larger when
several are. -/
theorem c2_bonus_is_per_matching_category (material text : String) :
    material_category_bonus material (extract_risk_types text)
      = 0.25 * (((extract_risk_types text).filter (sensitive_category material)).length : ℚ) :=
  material_category_bonus_counts material (extract_risk_types text)

/-- Rounding the exact value 1 to two decimals gives 1. -/
theorem round2_one : round2 (1 : ℚ) = 1 := by
  unfold round2
  have h : ((1 : ℚ) * 100) = ((100 : ℤ) : ℚ) := by norm_num
  rw [h, round_intCast]
  norm_num

/-- C9: for every supplier node and every signal whose relevance score lies
in `[0,1]`, `score_risk` returns a value in `[0,1]`; the value is capped at
`1.0` and is an exact two-decimal quantity (`round2` leaves it unchanged). -/
theorem c9_score_risk_in_unit_interval (news : News) (node : NodeAttrs)
    (h0 : 0 ≤ news.relevance_score.getD 0.5) (h1 : news.relevance_score.getD 0.5 ≤ 1) :
    0 ≤ score_risk news node ∧ score_risk news node ≤ 1 ∧
    round2 (score_risk news node) = score_risk news node := by
  clear h1
  unfold score_risk
  have hA : (0 : ℚ) ≤ lookupD COUNTRY_RISK_BASE ((node.country.getD "").trim) 0.3 :=
    lookupD_le _ _ _ _ (by intro p hp; fin_cases hp <;> norm_num) (by norm_num)
  have hB : (0 : ℚ) ≤ material_category_bonus (node.material.getD "")
      (extract_risk_types (news.title ++ " " ++ news.summary).toLower) := by
    rw [material_category_bonus_counts]
    positivity
  have hC : (0 : ℚ) ≤ news.relevance_score.getD 0.5 * 0.3 := mul_nonneg h0 (by norm_num)
  have hD : (0 : ℚ) ≤ (if (node.country.getD "").trim ∈
      extract_entities_countries (news.title ++ " " ++ news.summary).toLower then 0.15 else 0) := by
    split <;> norm_num
  have hE : (0 : ℚ) ≤ (if node.material.getD "" ∈
      extract_entities_materials (news.title ++ " " ++ news.summary).toLower then 0.20 else 0) := by
    split <;> norm_num
  have hbase : (0 : ℚ) ≤
      lookupD COUNTRY_RISK_BASE ((node.country.getD "").trim) 0.3
        + material_category_bonus (node.material.getD "")
            (extract_risk_types (news.title ++ " " ++ news.summary).toLower)
        + news.relevance_score.getD 0.5 * 0.3
        + (if (node.country.getD "").trim ∈
            extract_entities_countries (news.title ++ " " ++ news.summary).toLower then 0.15 else 0)
        + (if node.material.getD "" ∈
            extract_entities_materials (news.title ++ " " ++ news.summary).toLower then 0.20 else 0) := by
    linarith
  refine ⟨le_min (round2_nonneg _ hbase) (by norm_num), min_le_right _ _, ?_⟩
  rcases le_total (round2 (lookupD COUNTRY_RISK_BASE ((node.country.getD "").trim) 0.3
        + material_category_bonus (node.material.getD "")
            (extract_risk_types (news.title ++ " " ++ news.summary).toLower)
        + news.relevance_score.getD 0.5 * 0.3
        + (if (node.country.getD "").trim ∈
            extract_entities_countries (news.title ++ " " ++ news.summary).toLower then 0.15 else 0)
        + (if node.material.getD "" ∈
            extract_entities_materials (news.title ++ " " ++ news.summary).toLower then 0.20 else 0))) 1 with h | h
  · rw [min_eq_left h]
    exact round2_idem _
  · rw [min_eq_right h]
    exact round2_one

/-- C9 witness: the demo signal (relevance 0) and the Swedish semiconductor
supplier node. -/
theorem c9_score_risk_in_unit_interval_witness :
    (0 ≤ demoNewsTwoCats.relevance_score.getD 0.5 ∧
      demoNewsTwoCats.relevance_score.getD 0.5 ≤ 1) ∧
    (0 ≤ score_risk demoNewsTwoCats demoNodeSweden ∧
      score_risk demoNewsTwoCats demoNodeSweden ≤ 1 ∧
      round2 (score_risk demoNewsTwoCats demoNodeSweden) = score_risk demoNewsTwoCats demoNodeSweden) :=
  ⟨⟨by with_unfolding_all decide, by with_unfolding_all decide⟩,
   c9_score_risk_in_unit_interval demoNewsTwoCats demoNodeSweden
     (by with_unfolding_all decide) (by with_unfolding_all decide)⟩

/-- Restatement of the spec's confidence formula, written from the spec's
words (`clamp01` of severity plus the four additive factors, each from the
fixed 1–5 tables with default 2, rounded to 2 decimals); compared against the
embedded `calculate_confidence` in the C6 theorem. -/
def confidence_spec_formula (severity delay impact : ℚ) (material country : String) : ℚ :=
  round2 (clamp01 (min severity 1
    + min (delay / 14) 1 * 0.2
    + min (impact / 60) 1 * 0.2
    + lookupD MATERIAL_CRITICALITY material 2 / 5 * 0.2
    + lookupD COUNTRY_GEOPOLITICAL_RISK country 2 / 5 * 0.2))

/-- C6: for nonnegative severity, delay and service impact,
`calculate_confidence` equals the spec formula
`round2 (clamp01 (min(severity,1) + delay/14-capped factor + impact/60-capped
factor + criticality/5 factor + country-risk/5 factor))`, and each additive
factor lies in `[0, 0.2]`. -/
theorem c6_confidence_matches_spec_formula (risk : Risk) (sim : Scenario)
    (hsev : 0 ≤ risk.risk_score)
    (hdelay : 0 ≤ sim.estimated_delay_days)
    (himp : 0 ≤ sim.service_level_impact_pct) :
    calculate_confidence risk sim
      = confidence_spec_formula risk.risk_score sim.estimated_delay_days
          sim.service_level_impact_pct (risk.material.getD "Unknown") (risk.country.getD "Unknown") ∧
    (0 ≤ min (sim.estimated_delay_days / 14) 1 * 0.2 ∧
      min (sim.estimated_delay_days / 14) 1 * 0.2 ≤ 0.2) ∧
    (0 ≤ min (sim.service_level_impact_pct / 60) 1 * 0.2 ∧
      min (sim.service_level_impact_pct / 60) 1 * 0.2 ≤ 0.2) ∧
    (0 ≤ lookupD MATERIAL_CRITICALITY (risk.material.getD "Unknown") 2 / 5 * 0.2 ∧
      lookupD MATERIAL_CRITICALITY (risk.material.getD "Unknown") 2 / 5 * 0.2 ≤ 0.2) ∧
    (0 ≤ lookupD COUNTRY_GEOPOLITICAL_RISK (risk.country.getD "Unknown") 2 / 5 * 0.2 ∧
      lookupD COUNTRY_GEOPOLITICAL_RISK (risk.country.getD "Unknown") 2 / 5 * 0.2 ≤ 0.2) := by
  have hmat0 : (0 : ℚ) ≤ lookupD MATERIAL_CRITICALITY (risk.material.getD "Unknown") 2 :=
    lookupD_le _ _ _ _ (by intro p hp; fin_cases hp <;> norm_num) (by norm_num)
  have hmat5 : lookupD MATERIAL_CRITICALITY (risk.material.getD "Unknown") 2 ≤ 5 :=
    lookupD_ge _ _ _ _ (by intro p hp; fin_cases hp <;> norm_num) (by norm_num)
  have hcty0 : (0 : ℚ) ≤ lookupD COUNTRY_GEOPOLITICAL_RISK (risk.country.getD "Unknown") 2 :=
    lookupD_le _ _ _ _ (by intro p hp; fin_cases hp <;> norm_num) (by norm_num)
  have hcty5 : lookupD COUNTRY_GEOPOLITICAL_RISK (risk.country.getD "Unknown") 2 ≤ 5 :=
    lookupD_ge _ _ _ _ (by intro p hp; fin_cases hp <;> norm_num) (by norm_num)
  have hd0 : (0 : ℚ) ≤ min (sim.estimated_delay_days / 14) 1 :=
    le_min (by positivity) (by norm_num)
  have hd1 : min (sim.estimated_delay_days / 14) 1 ≤ 1 := min_le_right _ _
  have hi0 : (0 : ℚ) ≤ min (sim.service_level_impact_pct / 60) 1 :=
    le_min (by positivity) (by norm_num)
  have hi1 : min (sim.service_level_impact_pct / 60) 1 ≤ 1 := min_le_right _ _
  have hb0 : (0 : ℚ) ≤ min risk.risk_score 1 := le_min hsev (by norm_num)
  refine ⟨?_, ⟨by linarith, by linarith⟩, ⟨by linarith, by linarith⟩,
    ⟨by linarith, by linarith⟩, ⟨by linarith, by linarith⟩⟩
  unfold calculate_confidence confidence_spec_formula clamp01
    CRITICAL_DELAY_DAYS CRITICAL_SERVICE_IMPACT
  rw [max_eq_right]
  exact le_min (by linarith) (by norm_num)

/-- A concrete capacity-reduction scenario record (the simulator output for
the demo graph under the severity-0.85 risk). -/
def demoScenario85 : Scenario := ⟨"S001", "capacity_reduction", 0.85, 80, 13.5, 4, 0, "Quake"⟩

/-- C6 witness: the severity-0.85 demo risk and its simulated scenario. -/
theorem c6_confidence_matches_spec_formula_witness :
    (0 ≤ demoRisk85.risk_score ∧ 0 ≤ demoScenario85.estimated_delay_days ∧
      0 ≤ demoScenario85.service_level_impact_pct) ∧
    calculate_confidence demoRisk85 demoScenario85
      = confidence_spec_formula demoRisk85.risk_score demoScenario85.estimated_delay_days
          demoScenario85.service_level_impact_pct (demoRisk85.material.getD "Unknown")
          (demoRisk85.country.getD "Unknown") :=
  ⟨⟨by with_unfolding_all decide, by with_unfolding_all decide, by with_unfolding_all decide⟩,
   (c6_confidence_matches_spec_formula demoRisk85 demoScenario85
     (by with_unfolding_all decide) (by with_unfolding_all decide)
     (by with_unfolding_all decide)).1⟩

/- ── Lemmas about the working-copy disruption ── -/

/-- Capacity reduction does not change the node set. -/
theorem reduce_capacity_nodes (g : Graph) (n : String) (cl : ℚ) :
    (reduce_capacity g n cl).nodes = g.nodes := by
  unfold reduce_capacity
  cases capAttr g n <;> rfl

/-- Capacity reduction does not change the edge set. -/
theorem reduce_capacity_edges (g : Graph) (n : String) (cl : ℚ) :
    (reduce_capacity g n cl).edges = g.edges := by
  unfold reduce_capacity
  cases capAttr g n <;> rfl

/-- Reachability is a function of the edges only, so capacity reduction
leaves every descendant set untouched. -/
theorem descendants_reduce_capacity (g : Graph) (n : String) (cl : ℚ) (m : String) :
    descendants (reduce_capacity g n cl) m = descendants g m := by
  unfold descendants
  rw [reduce_capacity_edges]

/-- `find?` by key commutes with the key-preserving capacity update map. -/
theorem find?_attrs_setcap (attrs : List (String × NodeAttrs)) (n : String) (v : ℚ) :
    (attrs.map (fun p => if p.1 = n then (p.1, { p.2 with capacity := some v }) else p)).find?
        (fun p => p.1 == n)
      = (attrs.find? (fun p => p.1 == n)).map
          (fun p => if p.1 = n then (p.1, { p.2 with capacity := some v }) else p) := by
  rw [List.find?_map]
  have hpred : ((fun p : String × NodeAttrs => p.1 == n)
        ∘ fun p => if p.1 = n then (p.1, { p.2 with capacity := some v }) else p)
      = fun p : String × NodeAttrs => p.1 == n := by
    funext p
    by_cases h : p.1 = n <;> simp [h, Function.comp]
  rw [hpred]

/-- After the capacity-reduction arm, the node's `capacity` attribute holds
`max 0 (orig * (1 - capacity_loss))` whenever it was present, and stays
absent otherwise. -/
theorem capAttr_reduce_capacity (g : Graph) (n : String) (cl : ℚ) :
    capAttr (reduce_capacity g n cl) n
      = (capAttr g n).map (fun c => max 0 (c * (1 - cl))) := by
  cases h : capAttr g n with
  | none =>
    unfold reduce_capacity
    rw [h]
    exact h
  | some c =>
    unfold reduce_capacity
    rw [h]
    show capAttr (set_capacity g n (max 0 (c * (1 - cl)))) n = some (max 0 (c * (1 - cl)))
    unfold capAttr attrOf at h
    unfold capAttr attrOf set_capacity
    simp only [find?_attrs_setcap]
    cases hf : g.attrs.find? (fun p => p.1 == n) with
    | none => rw [hf] at h; simp at h
    | some p =>
      rw [hf] at h
      have hp : p.1 = n := by simpa using List.find?_some hf
      simp [hp]

/-- The severity ≥ 0.9 arm of the disruption application. -/
theorem apply_disruption_high (g : Graph) (n : String) (s cl : ℚ)
    (h9 : 0.9 ≤ s) (hmem : n ∈ g.nodes) :
    apply_disruption g n s cl = Except.ok (remove_node g n, "node_failure") := by
  unfold apply_disruption
  rw [if_pos ⟨h9, hmem⟩]

/-- The severity < 0.9 arm of the disruption application. -/
theorem apply_disruption_low (g : Graph) (n : String) (s cl : ℚ)
    (h9 : s < 0.9) (hmem : n ∈ g.nodes) :
    apply_disruption g n s cl = Except.ok (reduce_capacity g n cl, "capacity_reduction") := by
  unfold apply_disruption
  rw [if_neg (fun hc => absurd hc.1 (not_le.mpr h9)), if_pos hmem]

/-- Unfolding of the simulator on a successfully disrupted working copy. -/
theorem simulate_ok (g : Graph) (r : Risk) (simG : Graph) (dt : String)
    (hd : apply_disruption g r.node_id r.risk_score (capacity_loss_of r.risk_score)
      = Except.ok (simG, dt)) :
    (simulate_single_risk g r).1 = Except.ok
      { node_id := r.node_id,
        disruption_type := dt,
        severity_used := r.risk_score,
        capacity_loss_pct := round (capacity_loss_of r.risk_score * 100),
        estimated_delay_days := round1 (max_delay_over g r.node_id (sim_affected simG r.node_id)
          (delay_multiplier_of r.risk_score)),
        affected_nodes_count := (sim_affected simG r.node_id).length,
        service_level_impact_pct :=
          if 0 < (descendants g r.node_id).length + 1 then
            round1 ((1 - (((if dt = "capacity_reduction" then (sim_affected simG r.node_id).length
                  else 1) : Nat) : ℚ)
              / (((descendants g r.node_id).length + 1 : Nat) : ℚ)) * 100)
          else 100,
        news_title := r.news_title.getD "Unknown" } := by
  simp only [simulate_single_risk, hd]

/-- Rounding the exact value 0 to one decimal gives 0. -/
theorem round1_zero : round1 (0 : ℚ) = 0 := by
  unfold round1
  norm_num

/-- C4: for a simulated risk whose node is in the graph, severity ≥ 0.9
removes the node from the working copy with `disruption_type = node_failure`;
severity < 0.9 keeps the node, reports `capacity_reduction`, and rescales a
present `capacity` attribute to
`max 0 (capacity * (1 - tier loss))` with tier loss 0.8 for severity ≥ 0.8,
0.4 for ≥ 0.5 and 0.2 otherwise (the `max 0` is the floor at zero). -/
theorem c4_disruption_tiers (g : Graph) (r : Risk) (hmem : r.node_id ∈ g.nodes) :
    (0.9 ≤ r.risk_score →
      apply_disruption g r.node_id r.risk_score (capacity_loss_of r.risk_score)
          = Except.ok (remove_node g r.node_id, "node_failure") ∧
      r.node_id ∉ (remove_node g r.node_id).nodes ∧
      (simulate_single_risk g r).1.toOption.map Scenario.disruption_type = some "node_failure")
    ∧ (r.risk_score < 0.9 →
      apply_disruption g r.node_id r.risk_score (capacity_loss_of r.risk_score)
          = Except.ok (reduce_capacity g r.node_id (capacity_loss_of r.risk_score),
              "capacity_reduction") ∧
      r.node_id ∈ (reduce_capacity g r.node_id (capacity_loss_of r.risk_score)).nodes ∧
      capAttr (reduce_capacity g r.node_id (capacity_loss_of r.risk_score)) r.node_id
        = (capAttr g r.node_id).map (fun c => max 0 (c *
            (1 - (if (0.8 : ℚ) ≤ r.risk_score then 0.8
                  else if (0.5 : ℚ) ≤ r.risk_score then 0.4 else 0.2)))) ∧
      (simulate_single_risk g r).1.toOption.map Scenario.disruption_type
        = some "capacity_reduction") := by
  have hcl : capacity_loss_of r.risk_score
      = (if (0.8 : ℚ) ≤ r.risk_score then 0.8
         else if (0.5 : ℚ) ≤ r.risk_score then 0.4 else 0.2) := by
    unfold capacity_loss_of CAPACITY_REDUCTION_SEVERE CAPACITY_REDUCTION_MODERATE
    rfl
  constructor
  · intro h9
    have hd := apply_disruption_high g r.node_id r.risk_score (capacity_loss_of r.risk_score) h9 hmem
    refine ⟨hd, ?_, ?_⟩
    · unfold remove_node
      simp
    · rw [simulate_ok g r _ _ hd]
      rfl
  · intro h9
    have hd := apply_disruption_low g r.node_id r.risk_score (capacity_loss_of r.risk_score) h9 hmem
    refine ⟨hd, ?_, ?_, ?_⟩
    · rw [reduce_capacity_nodes]
      exact hmem
    · rw [← hcl]
      exact capAttr_reduce_capacity g r.node_id (capacity_loss_of r.risk_score)
    · rw [simulate_ok g r _ _ hd]
      rfl

/-- C4 witness: the severity-0.95 demo risk on the builder graph takes the
node-failure arm. -/
theorem c4_disruption_tiers_witness :
    (demoRisk95.node_id ∈ demoGraph.nodes ∧ (0.9 : ℚ) ≤ demoRisk95.risk_score) ∧
    (apply_disruption demoGraph demoRisk95.node_id demoRisk95.risk_score
        (capacity_loss_of demoRisk95.risk_score)
        = Except.ok (remove_node demoGraph demoRisk95.node_id, "node_failure") ∧
      demoRisk95.node_id ∉ (remove_node demoGraph demoRisk95.node_id).nodes ∧
      (simulate_single_risk demoGraph demoRisk95).1.toOption.map Scenario.disruption_type
        = some "node_failure") :=
  ⟨⟨by with_unfolding_all decide, by with_unfolding_all decide⟩,
   (c4_disruption_tiers demoGraph demoRisk95 (by with_unfolding_all decide)).1
     (by with_unfolding_all decide)⟩

/-- C10: for every risk with severity < 0.9 against a node present in the
graph, the scenario is a `capacity_reduction` whose affected set is exactly
the node's descendants plus the node itself (so `sim_reachable` equals
`original_reachable`) and whose `service_level_impact_pct` is exactly 0. -/
theorem c10_capacity_reduction_zero_service_impact (g : Graph) (r : Risk)
    (hmem : r.node_id ∈ g.nodes) (hs : r.risk_score < 0.9) :
    (simulate_single_risk g r).1.toOption.map
        (fun s => (s.disruption_type, s.affected_nodes_count, s.service_level_impact_pct))
      = some ("capacity_reduction", (descendants g r.node_id).length + 1, 0) ∧
    sim_affected (reduce_capacity g r.node_id (capacity_loss_of r.risk_score)) r.node_id
      = descendants g r.node_id ++ [r.node_id] := by
  have hd := apply_disruption_low g r.node_id r.risk_score (capacity_loss_of r.risk_score) hs hmem
  have haff : sim_affected (reduce_capacity g r.node_id (capacity_loss_of r.risk_score)) r.node_id
      = descendants g r.node_id ++ [r.node_id] := by
    unfold sim_affected
    rw [reduce_capacity_nodes, if_pos hmem, descendants_reduce_capacity]
  refine ⟨?_, haff⟩
  rw [simulate_ok g r _ _ hd]
  have hlen : (sim_affected (reduce_capacity g r.node_id (capacity_loss_of r.risk_score))
      r.node_id).length = (descendants g r.node_id).length + 1 := by
    rw [haff]
    simp
  have hne : ((((descendants g r.node_id).length + 1 : Nat)) : ℚ) ≠ 0 := by
    positivity
  simp only [Except.toOption, Option.map, hlen, if_true]
  rw [div_self hne]
  norm_num [round1_zero]

/-- C10 witness: the severity-0.85 demo risk on the builder graph. -/
theorem c10_capacity_reduction_zero_service_impact_witness :
    (demoRisk85.node_id ∈ demoGraph.nodes ∧ demoRisk85.risk_score < 0.9) ∧
    ((simulate_single_risk demoGraph demoRisk85).1.toOption.map
        (fun s => (s.disruption_type, s.affected_nodes_count, s.service_level_impact_pct))
      = some ("capacity_reduction", (descendants demoGraph demoRisk85.node_id).length + 1, 0) ∧
    sim_affected (reduce_capacity demoGraph demoRisk85.node_id
        (capacity_loss_of demoRisk85.risk_score)) demoRisk85.node_id
      = descendants demoGraph demoRisk85.node_id ++ [demoRisk85.node_id]) :=
  ⟨⟨by with_unfolding_all decide, by with_unfolding_all decide⟩,
   c10_capacity_reduction_zero_service_impact demoGraph demoRisk85
     (by with_unfolding_all decide) (by with_unfolding_all decide)⟩

/- ── Lemmas for the decision-action list ── -/

/-- The dedup fold never empties a nonempty accumulator. -/
theorem dedupFirst_aux_ne_nil (l : List String) (acc : List String) (h : acc ≠ []) :
    l.foldl (fun acc x => if x ∈ acc then acc else acc ++ [x]) acc ≠ [] := by
  induction l generalizing acc with
  | nil => exact h
  | cons x l ih =>
    simp only [List.foldl_cons]
    by_cases hx : x ∈ acc
    · rw [if_pos hx]; exact ih acc h
    · rw [if_neg hx]; exact ih _ (by simp)

/-- First-occurrence deduplication of a nonempty list is nonempty. -/
theorem dedupFirst_ne_nil (l : List String) (h : l ≠ []) : dedupFirst l ≠ [] := by
  cases l with
  | nil => exact absurd rfl h
  | cons x l =>
    unfold dedupFirst
    simp only [List.foldl_cons]
    rw [if_neg (List.not_mem_nil x)]
    exact dedupFirst_aux_ne_nil l ([] ++ [x]) (by simp)

/-- The dedup fold preserves freedom from duplicates. -/
theorem dedupFirst_aux_nodup (l : List String) (acc : List String) (h : acc.Nodup) :
    (l.foldl (fun acc x => if x ∈ acc then acc else acc ++ [x]) acc).Nodup := by
  induction l generalizing acc with
  | nil => exact h
  | cons x l ih =>
    simp only [List.foldl_cons]
    by_cases hx : x ∈ acc
    · rw [if_pos hx]; exact ih acc h
    · rw [if_neg hx]
      refine ih _ ?_
      rw [List.nodup_append]
      exact ⟨h, List.nodup_singleton x, by simp [List.Disjoint]; intro a ha hax; exact hx (hax ▸ ha)⟩

/-- First-occurrence deduplication always yields a duplicate-free list. -/
theorem dedupFirst_nodup (l : List String) : (dedupFirst l).Nodup :=
  dedupFirst_aux_nodup l [] List.nodup_nil

/-- Every branch of the action cascade leaves at least one action: the
critical/high/medium/low tiers all append a nonempty block, the downgrade
replaces the list with `["do_nothing"]`, and the upgrade ends with an
appended `["notify_procurement"]`. -/
theorem decide_actions_ne_nil (severity delay_days service_impact : ℚ) (affected_count : Nat)
    (material country disruption_type : String) :
    decide_actions severity delay_days service_impact affected_count
      material country disruption_type ≠ [] := by
  unfold decide_actions
  apply dedupFirst_ne_nil
  repeat' split
  all_goals simp

/-- The emitted action list carries no duplicate ids. -/
theorem decide_actions_nodup (severity delay_days service_impact : ℚ) (affected_count : Nat)
    (material country disruption_type : String) :
    (decide_actions severity delay_days service_impact affected_count
      material country disruption_type).Nodup := by
  unfold decide_actions
  exact dedupFirst_nodup _

/-- C5: for every (risk, scenario) pair the recommendation list of
`decide_for_scenario` is non-empty, its action ids are pairwise distinct, and
urgency is non-increasing from the first to the last element. -/
theorem c5_recommendations_nonempty_nodup_sorted (risk : Risk) (sim : Scenario) :
    (decide_for_scenario risk sim).recommended_actions ≠ [] ∧
    ((decide_for_scenario risk sim).recommended_actions.map (·.action)).Nodup ∧
    (decide_for_scenario risk sim).recommended_actions.Pairwise
      (fun a b => b.urgency ≤ a.urgency) := by
  have hne := decide_actions_ne_nil risk.risk_score sim.estimated_delay_days
    sim.service_level_impact_pct sim.affected_nodes_count (risk.material.getD "Unknown")
    (risk.country.getD "Unknown") sim.disruption_type
  have hnd := decide_actions_nodup risk.risk_score sim.estimated_delay_days
    sim.service_level_impact_pct sim.affected_nodes_count (risk.material.getD "Unknown")
    (risk.country.getD "Unknown") sim.disruption_type
  simp only [decide_for_scenario]
  set ua := decide_actions risk.risk_score sim.estimated_delay_days
    sim.service_level_impact_pct sim.affected_nodes_count (risk.material.getD "Unknown")
    (risk.country.getD "Unknown") sim.disruption_type with hua
  set pairs := ua.map (fun act => (act, lookupD ACTION_LIBRARY act ⟨"", 0, 0, 0⟩)) with hpairs
  set le := fun (a b : String × ActionInfo) => decide (b.2.urgency ≤ a.2.urgency) with hle
  set sorted := pairs.mergeSort le with hsorted
  have hperm : sorted.Perm pairs := List.mergeSort_perm pairs le
  refine ⟨?_, ?_, ?_⟩
  · intro h
    rw [List.map_eq_nil_iff] at h
    have hlen := hperm.length_eq
    rw [h] at hlen
    have : pairs = [] := List.length_eq_zero.mp hlen.symm
    rw [hpairs, List.map_eq_nil_iff] at this
    exact hne this
  · rw [List.map_map]
    show (sorted.map Prod.fst).Nodup
    rw [(hperm.map Prod.fst).nodup_iff]
    rw [hpairs, List.map_map]
    show (ua.map (fun a => a)).Nodup
    rw [List.map_id']
    exact hnd
  · have hsort := @List.sorted_mergeSort _ le
      (fun a b c hab hbc => by
        rw [hle] at hab hbc ⊢
        simp only [decide_eq_true_eq] at hab hbc ⊢
        exact le_trans hbc hab)
      (fun a b => by
        rw [hle]
        simp only [Bool.or_eq_true, decide_eq_true_eq]
        exact Nat.le_total b.2.urgency a.2.urgency)
      pairs
    rw [List.pairwise_map]
    exact hsort.imp (fun hab => of_decide_eq_true hab)
